import Mathlib

/-!
Verification of `scripts/asr_language_modeling/ngram_lm/ngram_merge.py`.

The script orchestrates a pipeline that merges two ARPA n-gram language
models, optionally evaluates the merged model's perplexity on a test
corpus, and builds ARPA/KenLM artifacts.  Every stage shells out to an
external executable; the embedding below models the external world as an
oracle mapping a command line (the space-joined argument list, as the
script itself joins it) to the process outcome, and each stage as a pure
function from that oracle plus a filesystem snapshot (the set of existing
paths) to its Python return value together with the list of observable
side effects (commands launched, tokenizer setup, files written).

Floats (the interpolation weights `alpha` and `beta`) are used by the
script only through their Python `str()` rendering, interpolated into
file names and command lines; they are therefore embedded as the strings
that `str()` produces.  `str` is injective on floats, and on the
non-negative weights the design admits its image contains no `-`
character; theorems that need those facts take them as hypotheses.
-/

/-- Outcome of an external process: exit status plus what the process wrote
on its own standard streams (visible to the caller only when piped). -/
structure ProcResult where
  returncode : Int
  stdout : String
  stderr : String
deriving DecidableEq

/-- The external world: each command line is resolved to a process outcome.
Commands are keyed by their space-joined argument list, exactly the string
the script itself builds for its assertion messages. -/
abbrev World := String → ProcResult

/-- `" ".join(sh_args)` / the implicit command line of `subprocess.run`. -/
def joinSpace (l : List String) : String := String.intercalate (" ") l

/-- `subprocess.CompletedProcess` as the script observes it: with
`capture_output=False` and the streams redirected to the terminal, only
the argument list and the return code are available. -/
structure CompletedProcess where
  args : List String
  returncode : Int
deriving DecidableEq

/-- `subprocess.run(sh_args, capture_output=False, stdout=sys.stdout,
stderr=sys.stderr)`: runs the command and returns the completed process;
no exception is raised for a non-zero exit (no `check=True`). -/
def subprocess_run (w : World) (sh_args : List String) : CompletedProcess :=
  ⟨sh_args, (w (joinSpace sh_args)).returncode⟩

/-- One line of the symbol table: the codepoint of the one-character
symbol `chr(id + DEFAULT_TOKEN_OFFSET)` and the integer id written next
to it.  Symbols are represented by their codepoints; `chr` is injective
on codepoints, so distinctness of codepoints is distinctness of the
written one-character symbols. -/
structure SymLine where
  sym : Nat
  id : Nat
deriving DecidableEq

/-- The tokenizer-normalization options bundled into the `Args` namedtuple
that `test_perplexity` builds and `farcompile` forwards to
`kenlm_utils.setup_tokenizer` / `kenlm_utils.iter_files`. -/
structure Args where
  nemo_model_file : String
  punctuation_marks : String
  do_lowercase : Bool
  rm_punctuation : Bool
  separate_punctuation : Bool
  verbose : Nat
deriving DecidableEq

/-- Observable side effects of a stage: an external command launched, the
tokenizer set up (`kenlm_utils.setup_tokenizer`), the corpus streamed
(`kenlm_utils.iter_files`), the ASR model loaded, a symbol table written. -/
inductive Event where
  | cmd (command : String)
  | setupTokenizer (a : Args)
  | iterFiles (text_file : String)
  | loadModel (nemo_model_file : String)
  | wroteSymbols (path : String) (table : List SymLine)
deriving DecidableEq

/-- `os.path.isfile(p)` over the filesystem snapshot. -/
def os_path_isfile (fs : List String) (p : String) : Bool := fs.contains p

/-- `b.startswith("/")`, written over the character list so proofs can
reason about it directly. -/
def pyStartsWithSlash (s : String) : Bool :=
  match s.data with
  | [] => false
  | c :: _ => c == '/'

/-- `a.endswith("/")`, written over the character list. -/
def pyEndsWithSlash (s : String) : Bool :=
  match s.data.getLast? with
  | some c => c == '/'
  | none => false

/-- `os.path.join(a, b)` for POSIX paths: an absolute second component
wins; otherwise the components are joined with a single separator. -/
def os_path_join (a b : String) : String :=
  if pyStartsWithSlash b then b
  else if a = "" then b
  else if pyEndsWithSlash a then a ++ b
  else a ++ ("/") ++ b

/-- Python `s.split(sep)` for a one-character separator, over the
character list (structurally recursive, so it computes by reduction):
splitting the empty string yields one empty part, and every occurrence of
the separator opens a new part. -/
def splitOnChar (sep : Char) : List Char → List (List Char)
  | [] => [[]]
  | c :: cs =>
    match splitOnChar sep cs with
    | [] => [[]]
    | h :: t => if c = sep then [] :: h :: t else (c :: h) :: t

/-- Python `s.split(sep)` for a one-character separator `sep`. -/
def pySplit (s : String) (sep : Char) : List String :=
  (splitOnChar sep s.data).map String.mk

/-- `os.path.split(p)[1]`: everything after the last slash. -/
def pyBasename (s : String) : String :=
  String.mk ((splitOnChar '/' s.data).getLastD [])

/-- Python truthiness of an optional string argument (`argparse` default
`None`; the empty string is also falsy). -/
def pyTruthy : Option String → Bool
  | none => false
  | some s => !(s == "")

/-- Unwrap an optional string (used only where the script has already
established truthiness). -/
def optS : Option String → String := fun o => o.getD ("")

/-- Rendering of an `Optional[str]` inside a Python f-string: `None` when
absent. -/
def pyOptStr : Option String → String
  | none => "None"
  | some s => s

/-- The f-string of the script's two `assert exit_code == 0` messages:
`"Exit_code must be 0.\n bash command: {command} \n stdout: {stdout} \n stderr: {stderr}"`. -/
def assert_msg (command stdout stderr : String) : String :=
  "Exit_code must be 0.\n bash command: " ++ command ++ " \n stdout: " ++ stdout
    ++ " \n stderr: " ++ stderr

/-- What `arpa2mod` returns: either the skip message (cache hit) or the
`CompletedProcess` of the `ngramread` invocation.  Note there is no error
alternative: the function never raises, whatever the exit status. -/
inductive RunRet where
  | skipped (msg : String)
  | completed (cp : CompletedProcess)
deriving DecidableEq

/-- `arpa2mod(arpa_path, force)`: converts an ARPA model to binary `.mod`
form via `ngramread --ARPA`, skipping when the target exists and `force`
is false.  The second component is the trace of external commands run. -/
def arpa2mod (w : World) (fs : List String) (arpa_path : String) (force : Bool) :
    RunRet × List Event :=
  if os_path_isfile fs (arpa_path ++ (".mod")) && !force then
    (RunRet.skipped ("File " ++ (arpa_path ++ (".mod")) ++ " exists. Skipping."), [])
  else
    (RunRet.completed
        (subprocess_run w ["ngramread", "--ARPA", arpa_path, arpa_path ++ (".mod")]),
      [Event.cmd (joinSpace ["ngramread", "--ARPA", arpa_path, arpa_path ++ (".mod")])])

/-- `ngrammerge(arpa_a, alpha, arpa_b, beta, arpa_c, force)`: merges the
two `.mod` models into `arpa_c + ".mod"` with interpolation weights and
`--normalize`, skipping when the target exists and `force` is false.
Returns the output `.mod` path; the subprocess result is only logged. -/
def ngrammerge (w : World) (fs : List String)
    (arpa_a alphaS arpa_b betaS arpa_c : String) (force : Bool) :
    String × List Event :=
  if os_path_isfile fs (arpa_c ++ (".mod")) && !force then
    (arpa_c ++ (".mod"), [])
  else
    (arpa_c ++ (".mod"),
      [Event.cmd (joinSpace
        ["ngrammerge", "--alpha=" ++ alphaS, "--beta=" ++ betaS, "--normalize",
          arpa_a ++ (".mod"), arpa_b ++ (".mod"), arpa_c ++ (".mod")])])

/-- The merged-model file name `f"{basename(arpa_a)}-{alpha}-{basename(arpa_b)}-{beta}.arpa"`. -/
def mergedName (arpa_a alphaS arpa_b betaS : String) : String :=
  pyBasename arpa_a ++ ("-") ++ alphaS ++ ("-") ++ pyBasename arpa_b ++ ("-")
    ++ betaS ++ (".arpa")

/-- `merge(arpa_a, alpha, arpa_b, beta, out_path, force)`: converts both
inputs to binary form, computes the weight-encoding output path and runs
`ngrammerge`; returns `(mod_c, arpa_c)`. -/
def merge (w : World) (fs : List String)
    (arpa_a alphaS arpa_b betaS out_path : String) (force : Bool) :
    (String × String) × List Event :=
  let r1 := arpa2mod w fs arpa_a force
  let r2 := arpa2mod w fs arpa_b force
  let arpa_c := os_path_join out_path (mergedName arpa_a alphaS arpa_b betaS)
  let r3 := ngrammerge w fs arpa_a alphaS arpa_b betaS arpa_c force
  ((r3.1, arpa_c), r1.2 ++ r2.2 ++ r3.2)

/-- The symbol table `make_symbol_list` writes:
`vocab = [chr(idx + DEFAULT_TOKEN_OFFSET) for idx in range(vocab_size)]`,
one line `v + " " + str(i)` per `(i, v)` in `enumerate(vocab)`. -/
def symbol_vocab (offset vocab_size : Nat) : List SymLine :=
  (List.range vocab_size).map (fun i => ⟨i + offset, i⟩)

/-- `make_symbol_list(nemo_model_file, symbols, force)`: loads the ASR
model to obtain the vocabulary size, then writes the symbol table,
skipping when the target exists and `force` is false.

Modelled from the spec: `DEFAULT_TOKEN_OFFSET` (the constant offsetting
ids into a character range, imported from repository code outside `src/`)
and the vocabulary size `len(asr_model.decoder.vocabulary)` (obtained
from the externally loaded model) are taken as the parameters `offset`
and `vocab_size`. -/
def make_symbol_list (fs : List String) (vocab_size offset : Nat)
    (nemo_model_file symbols : String) (force : Bool) :
    Option (List SymLine) × List Event :=
  if os_path_isfile fs symbols && !force then
    (none, [])
  else
    (some (symbol_vocab offset vocab_size),
      [Event.loadModel nemo_model_file,
        Event.wroteSymbols symbols (symbol_vocab offset vocab_size)])

/-- The `farcompilestrings` argument list (the `>` redirection is part of
the shell command string, exactly as the script joins it). -/
def farcompile_sh_args (symbols test_far : String) : List String :=
  ["farcompilestrings", "--generate_keys=10", "--fst_type=compact",
    "--symbols=" ++ symbols, "--keep_symbols", ">", test_far]

/-- `farcompile(symbols, text_file, test_far, force, args)`: on a cache
hit returns `None` with no side effect at all; otherwise sets up the
tokenizer, launches the compiler subprocess with `stdin=PIPE` but
`stdout=sys.stdout, stderr=sys.stderr` (so `communicate()` captures
nothing and yields `(None, None)`), streams the corpus into it, and
asserts a zero exit, interpolating the uncaptured `None` values into the
assertion message. -/
def farcompile (w : World) (fs : List String)
    (symbols text_file test_far : String) (force : Bool) (a : Args) :
    Except String (Option (Option String × Option String)) × List Event :=
  if os_path_isfile fs test_far && !force then
    (Except.ok none, [])
  else
    if (w (joinSpace (farcompile_sh_args symbols test_far))).returncode = 0 then
      (Except.ok (some (none, none)),
        [Event.setupTokenizer a,
          Event.cmd (joinSpace (farcompile_sh_args symbols test_far)),
          Event.iterFiles text_file])
    else
      (Except.error (assert_msg (joinSpace (farcompile_sh_args symbols test_far))
          (pyOptStr none) (pyOptStr none)),
        [Event.setupTokenizer a,
          Event.cmd (joinSpace (farcompile_sh_args symbols test_far)),
          Event.iterFiles text_file])

/-- The `ngramperplexity --v=1` command line. -/
def ngramperplexity_cmd (ngram_mod test_far : String) : String :=
  joinSpace ["ngramperplexity", "--v=1", ngram_mod, test_far]

/-- `perplexity(ngram_mod, test_far)`: runs the scorer with
`stdout=PIPE, stderr=PIPE` (both captured as text), asserts a zero exit
with the captured streams in the message, and on success returns
`"\n".join(stdout.split("\n")[-6:-1])` — the five split parts preceding
the last one. -/
def perplexity (w : World) (ngram_mod test_far : String) :
    Except String String × List Event :=
  if (w (ngramperplexity_cmd ngram_mod test_far)).returncode = 0 then
    (Except.ok (String.intercalate ("\n")
        (((pySplit (w (ngramperplexity_cmd ngram_mod test_far)).stdout '\n').drop
            ((pySplit (w (ngramperplexity_cmd ngram_mod test_far)).stdout '\n').length - 6)).dropLast)),
      [Event.cmd (ngramperplexity_cmd ngram_mod test_far)])
  else
    (Except.error (assert_msg (ngramperplexity_cmd ngram_mod test_far)
        ((w (ngramperplexity_cmd ngram_mod test_far)).stdout)
        ((w (ngramperplexity_cmd ngram_mod test_far)).stderr)),
      [Event.cmd (ngramperplexity_cmd ngram_mod test_far)])

/-- `make_arpa(ngram_mod, ngram_arpa, force)`: prints the binary model to
ARPA text via `ngramprint --ARPA`, skipping when the target exists and
`force` is false.  Returns `None` on a skip and the `CompletedProcess`
otherwise; the exit status is never inspected. -/
def make_arpa (w : World) (fs : List String)
    (ngram_mod ngram_arpa : String) (force : Bool) :
    Option CompletedProcess × List Event :=
  if os_path_isfile fs ngram_arpa && !force then
    (none, [])
  else
    (some (subprocess_run w ["ngramprint", "--ARPA", ngram_mod, ngram_arpa]),
      [Event.cmd (joinSpace ["ngramprint", "--ARPA", ngram_mod, ngram_arpa])])

/-- `make_kenlm(kenlm_bin_path, ngram_arpa, force)`: builds the final
KenLM artifact `ngram_arpa + ".kenlm"` with `<kenlm_bin_path> trie -i`,
skipping when the target exists and `force` is false.  Returns `None` on
a skip and the `CompletedProcess` otherwise; the exit status is never
inspected. -/
def make_kenlm (w : World) (fs : List String)
    (kenlm_bin_path ngram_arpa : String) (force : Bool) :
    Option CompletedProcess × List Event :=
  if os_path_isfile fs (ngram_arpa ++ (".kenlm")) && !force then
    (none, [])
  else
    (some (subprocess_run w
        [kenlm_bin_path, "trie", "-i", ngram_arpa, ngram_arpa ++ (".kenlm")]),
      [Event.cmd (joinSpace
        [kenlm_bin_path, "trie", "-i", ngram_arpa, ngram_arpa ++ (".kenlm")])])

/-- The `Args` namedtuple literally built by `test_perplexity`: only
`nemo_model_file` varies, every normalization option is hard-coded. -/
def test_perplexity_args (nemo_model_file : String) : Args :=
  ⟨nemo_model_file, ".,?", false, false, true, 0⟩

/-- `test_perplexity(mod_c, symbols, test_txt, nemo_model_file, tmp_path,
force)`: compiles the test corpus to a FAR next to `tmp_path` and scores
it.  A `farcompile` assertion failure propagates; otherwise `perplexity`
runs unconditionally (it has no cache gate). -/
def test_perplexity (w : World) (fs : List String)
    (mod_c symbols test_txt nemo_model_file tmp_path : String) (force : Bool) :
    Except String String × List Event :=
  let test_far := os_path_join tmp_path (pyBasename test_txt ++ (".far"))
  let fc := farcompile w fs symbols test_txt test_far force
    (test_perplexity_args nemo_model_file)
  match fc.1 with
  | Except.error e => (Except.error e, fc.2)
  | Except.ok _ =>
      let p := perplexity w mod_c test_far
      (p.1, fc.2 ++ p.2)

/-- The evaluation branch of `main` (`if test_file and nemo_model_file:`):
when no symbol-table path was supplied, a default path is derived from the
model name and `make_symbol_list` is invoked on it; a supplied path is
used as-is.  Then `test_perplexity` runs; its assertion failures become
the branch's error. -/
def eval_branch (w : World) (fs : List String) (vocab_size offset : Nat)
    (mod_c out_path : String)
    (test_file symbols nemo_model_file : Option String) (force : Bool) :
    Except String Unit × List Event :=
  if pyTruthy test_file && pyTruthy nemo_model_file then
    let p :=
      if pyTruthy symbols then (optS symbols, ([] : List Event))
      else
        (os_path_join out_path (pyBasename (optS nemo_model_file) ++ (".syms")),
          (make_symbol_list fs vocab_size offset (optS nemo_model_file)
            (os_path_join out_path (pyBasename (optS nemo_model_file) ++ (".syms"))) force).2)
    let t := test_perplexity w fs mod_c p.1 (optS test_file)
      (optS nemo_model_file) out_path force
    (t.1.map (fun _ => ()), p.2 ++ t.2)
  else (Except.ok (), [])

/-- The script's `main(...)` (named `ngram_merge_main` here because Lean
reserves `main` for executables): merge, the optional evaluation branch,
then the two artifact stages.  An assertion failure inside the evaluation
branch propagates out of `main` as the error; only when the branch
succeeds (or is skipped) do `make_arpa` and `make_kenlm` run. -/
def ngram_merge_main (w : World) (fs : List String) (vocab_size offset : Nat)
    (kenlm_bin_path arpa_a alphaS arpa_b betaS out_path : String)
    (test_file symbols nemo_model_file : Option String) (force : Bool) :
    Except String Unit × List Event :=
  let m := merge w fs arpa_a alphaS arpa_b betaS out_path force
  let e := eval_branch w fs vocab_size offset m.1.1 out_path
    test_file symbols nemo_model_file force
  match e.1 with
  | Except.error err => (Except.error err, m.2 ++ e.2)
  | Except.ok _ =>
      let a := make_arpa w fs m.1.1 m.1.2 force
      let k := make_kenlm w fs kenlm_bin_path m.1.2 force
      (Except.ok (), m.2 ++ e.2 ++ a.2 ++ k.2)

/-- A world in which every external command fails with exit status 1. -/
def wFail : World := fun _ => ⟨1, "", ""⟩

/-- A world in which every external command succeeds and prints seven
lines on its standard output. -/
def wOK : World := fun _ => ⟨0, "l1\nl2\nl3\nl4\nl5\nl6\nl7", ""⟩

/-- A stubbed collaborator: exits with status 1 after emitting
recognizable strings on both streams. -/
def wStub : World := fun _ => ⟨1, "STUBOUT", "STUBERR"⟩

/-- `True` exactly on `Except.error`. -/
def isError {ε α : Type} : Except ε α → Bool
  | Except.error _ => true
  | Except.ok _ => false

/-- `True` on the events of the symbol-table building stage (model load,
table write). -/
def isBuildEvent : Event → Bool
  | Event.loadModel _ => true
  | Event.wroteSymbols _ _ => true
  | _ => false

/-- `True` on commands of the artifact-building stages: the `ngramprint`
invocation of `make_arpa` and the KenLM `build_binary` invocation of
`make_kenlm`. -/
def isArtifactCmd : Event → Bool
  | Event.cmd c =>
      ("ngramprint").data.isPrefixOf c.data || ("build_binary").data.isPrefixOf c.data
  | _ => false

/-- Whether `needle` occurs as a contiguous segment of `hay` (substring
containment over character lists). -/
def containsSeg (needle : List Char) : List Char → Bool
  | [] => needle.isEmpty
  | c :: cs => needle.isPrefixOf (c :: cs) || containsSeg needle cs

/-- C1: the claim says every external-command stage fails fatally on a
non-zero exit.  The code disagrees: in a world where EVERY external
command exits with status 1, the whole pipeline (both conversions, the
merge, the ARPA print and the KenLM build) still runs to completion and
`main` returns successfully — `arpa2mod`, `ngrammerge`, `make_arpa` and
`make_kenlm` invoke `subprocess.run` without `check=True` and never
inspect the return code. -/
theorem pipeline_continues_past_failed_commands :
    ngram_merge_main wFail [] 0 100 ("build_binary") ("a.arpa") ("2.0") ("b.arpa") ("1.0")
        ("out") none none none false
      = (Except.ok (),
          [Event.cmd ("ngramread --ARPA a.arpa a.arpa.mod"),
            Event.cmd ("ngramread --ARPA b.arpa b.arpa.mod"),
            Event.cmd ("ngrammerge --alpha=2.0 --beta=1.0 --normalize a.arpa.mod b.arpa.mod out/a.arpa-2.0-b.arpa-1.0.arpa.mod"),
            Event.cmd ("ngramprint --ARPA out/a.arpa-2.0-b.arpa-1.0.arpa.mod out/a.arpa-2.0-b.arpa-1.0.arpa"),
            Event.cmd ("build_binary trie -i out/a.arpa-2.0-b.arpa-1.0.arpa out/a.arpa-2.0-b.arpa-1.0.arpa.kenlm")])
      ∧ (wFail ("ngramread --ARPA a.arpa a.arpa.mod")).returncode = 1 :=
  ⟨rfl, rfl⟩

/-- C2: every file-producing stage skips its work (empty side-effect
trace) exactly when its target output file exists and `force` is false;
equivalently, with `force` set, or with the target absent, the external
collaborator is (re-)invoked, and on a skip nothing at all happens. -/
theorem cache_gate_skip_iff (w : World) (fs : List String) (vocab_size offset : Nat)
    (kenlm_bin_path arpa_path arpa_a alphaS arpa_b betaS arpa_c : String)
    (nemo_model_file symbols text_file test_far ngram_mod ngram_arpa : String)
    (force : Bool) (a : Args) :
    ((arpa2mod w fs arpa_path force).2 = []
        ↔ (os_path_isfile fs (arpa_path ++ (".mod")) = true ∧ force = false))
    ∧ ((ngrammerge w fs arpa_a alphaS arpa_b betaS arpa_c force).2 = []
        ↔ (os_path_isfile fs (arpa_c ++ (".mod")) = true ∧ force = false))
    ∧ ((make_symbol_list fs vocab_size offset nemo_model_file symbols force).2 = []
        ↔ (os_path_isfile fs symbols = true ∧ force = false))
    ∧ ((farcompile w fs symbols text_file test_far force a).2 = []
        ↔ (os_path_isfile fs test_far = true ∧ force = false))
    ∧ ((make_arpa w fs ngram_mod ngram_arpa force).2 = []
        ↔ (os_path_isfile fs ngram_arpa = true ∧ force = false))
    ∧ ((make_kenlm w fs kenlm_bin_path ngram_arpa force).2 = []
        ↔ (os_path_isfile fs (ngram_arpa ++ (".kenlm")) = true ∧ force = false)) := by
  refine ⟨?_, ?_, ?_, ?_, ?_, ?_⟩
  · unfold arpa2mod
    cases h : os_path_isfile fs (arpa_path ++ (".mod")) <;> cases force <;> simp [h]
  · unfold ngrammerge
    cases h : os_path_isfile fs (arpa_c ++ (".mod")) <;> cases force <;> simp [h]
  · unfold make_symbol_list
    cases h : os_path_isfile fs symbols <;> cases force <;> simp [h]
  · unfold farcompile
    cases h : os_path_isfile fs test_far <;> cases force <;>
      by_cases hr : (w (joinSpace (farcompile_sh_args symbols test_far))).returncode = 0 <;>
      simp [h, hr]
  · unfold make_arpa
    cases h : os_path_isfile fs ngram_arpa <;> cases force <;> simp [h]
  · unfold make_kenlm
    cases h : os_path_isfile fs (ngram_arpa ++ (".kenlm")) <;> cases force <;> simp [h]

/-- C9: `farcompile` yields `None` with no side effect at all (no
tokenizer setup, no subprocess) exactly on a cache hit, and the
`(stdout, stderr)` tuple its signature declares is returned only on the
produce path. -/
theorem farcompile_cache_hit (w : World) (fs : List String)
    (symbols text_file test_far : String) (force : Bool) (a : Args) :
    (farcompile w fs symbols text_file test_far force a = (Except.ok none, [])
      ↔ (os_path_isfile fs test_far = true ∧ force = false))
    ∧ ∀ p, (farcompile w fs symbols text_file test_far force a).1 = Except.ok (some p)
        → (os_path_isfile fs test_far && !force) = false := by
  unfold farcompile
  cases h : os_path_isfile fs test_far <;> cases force <;>
    by_cases hr : (w (joinSpace (farcompile_sh_args symbols test_far))).returncode = 0 <;>
    simp [h, hr]

/-- Witness for C9 at a concrete cache hit: the FAR file exists and
`force` is false, so `farcompile` returns `None` and does nothing. -/
theorem farcompile_cache_hit_witness :
    farcompile wOK [("t.txt.far")] ("s.syms") ("t.txt") ("t.txt.far") false
        (test_perplexity_args ("tok.nemo"))
      = (Except.ok none, []) :=
  (farcompile_cache_hit wOK [("t.txt.far")] ("s.syms") ("t.txt") ("t.txt.far") false
      (test_perplexity_args ("tok.nemo"))).1.mpr ⟨by decide, rfl⟩

/-- C3 counterexample: with every external command failing, a run that
requests evaluation (test corpus and tokenizer supplied) aborts inside
the evaluation branch — `main` returns the assertion error and no
`ngramprint` or KenLM `build_binary` command is ever launched, so an
evaluation failure does prevent `make_arpa` and `make_kenlm` from
running. -/
theorem eval_failure_blocks_artifacts_cex :
    isError (ngram_merge_main wFail [] 2 100 ("build_binary") ("a.arpa") ("2.0") ("b.arpa")
        ("1.0") ("out") (some ("t.txt")) none (some ("tok.nemo")) false).1 = true
    ∧ ((ngram_merge_main wFail [] 2 100 ("build_binary") ("a.arpa") ("2.0") ("b.arpa")
        ("1.0") ("out") (some ("t.txt")) none (some ("tok.nemo")) false).2.filter
          isArtifactCmd) = [] :=
  ⟨rfl, rfl⟩

/-- C3 amended: when the evaluation branch fails, its assertion error
propagates out of `main`; the run's side effects are exactly those of
`merge` and of the evaluation branch — `make_arpa` and `make_kenlm`
contribute nothing. -/
theorem eval_failure_aborts_main (w : World) (fs : List String) (vocab_size offset : Nat)
    (kenlm_bin_path arpa_a alphaS arpa_b betaS out_path : String)
    (test_file symbols nemo_model_file : Option String) (force : Bool) (e : String)
    (h : (eval_branch w fs vocab_size offset
        (merge w fs arpa_a alphaS arpa_b betaS out_path force).1.1 out_path
        test_file symbols nemo_model_file force).1 = Except.error e) :
    ngram_merge_main w fs vocab_size offset kenlm_bin_path arpa_a alphaS arpa_b betaS
        out_path test_file symbols nemo_model_file force
      = (Except.error e,
          (merge w fs arpa_a alphaS arpa_b betaS out_path force).2
            ++ (eval_branch w fs vocab_size offset
                (merge w fs arpa_a alphaS arpa_b betaS out_path force).1.1 out_path
                test_file symbols nemo_model_file force).2) := by
  simp only [ngram_merge_main]
  rw [h]

/-- Witness for the amended C3 theorem: the failing world from the
counterexample instantiates it, the evaluation failure being the
`farcompilestrings` assertion. -/
theorem eval_failure_aborts_main_witness :
    ngram_merge_main wFail [] 2 100 ("build_binary") ("a.arpa") ("2.0") ("b.arpa") ("1.0")
        ("out") (some ("t.txt")) none (some ("tok.nemo")) false
      = (Except.error (assert_msg
            (joinSpace (farcompile_sh_args ("out/tok.nemo.syms") ("out/t.txt.far")))
            ("None") ("None")),
          (merge wFail [] ("a.arpa") ("2.0") ("b.arpa") ("1.0") ("out") false).2
            ++ (eval_branch wFail [] 2 100
                (merge wFail [] ("a.arpa") ("2.0") ("b.arpa") ("1.0") ("out") false).1.1
                ("out") (some ("t.txt")) none (some ("tok.nemo")) false).2) :=
  eval_failure_aborts_main wFail [] 2 100 ("build_binary") ("a.arpa") ("2.0") ("b.arpa")
    ("1.0") ("out") (some ("t.txt")) none (some ("tok.nemo")) false _ rfl

/-- C4: on the produce path, `make_symbol_list` writes exactly
`vocab_size` lines; line `i` maps the symbol with codepoint
`i + DEFAULT_TOKEN_OFFSET` to id `i`; the ids are exactly `0 .. V-1` in
increasing order; the symbols are pairwise distinct; and the table is a
function of the tokenizer state alone — any other produce-path run with
the same vocabulary size and offset writes the identical table. -/
theorem make_symbol_list_table (fs : List String) (vocab_size offset : Nat)
    (nemo_model_file symbols : String) (force : Bool) (tbl : List SymLine)
    (hprod : (make_symbol_list fs vocab_size offset nemo_model_file symbols force).1
      = some tbl) :
    tbl.length = vocab_size
    ∧ (∀ i, ∀ h : i < tbl.length, tbl[i] = (⟨i + offset, i⟩ : SymLine))
    ∧ tbl.map SymLine.id = List.range vocab_size
    ∧ (tbl.map SymLine.sym).Nodup
    ∧ ∀ (fs2 : List String) (force2 : Bool) (tbl2 : List SymLine),
        (make_symbol_list fs2 vocab_size offset nemo_model_file symbols force2).1 = some tbl2
        → tbl2 = tbl := by
  have htbl : tbl = symbol_vocab offset vocab_size := by
    unfold make_symbol_list at hprod
    split at hprod
    · simp at hprod
    · simpa using hprod.symm
  subst htbl
  refine ⟨by simp [symbol_vocab], ?_, ?_, ?_, ?_⟩
  · intro i h
    simp [symbol_vocab]
  · simp only [symbol_vocab, List.map_map]
    exact List.map_id' _
  · simp only [symbol_vocab, List.map_map]
    exact (List.nodup_range _).map (fun a b hab => by simpa [Function.comp] using hab)
  · intro fs2 force2 tbl2 h2
    unfold make_symbol_list at h2
    split at h2
    · simp at h2
    · simpa using h2.symm

/-- Witness for C4 at `vocab_size = 3`, `offset = 100` on an empty
filesystem (produce path). -/
theorem make_symbol_list_table_witness :
    (symbol_vocab 100 3).length = 3
    ∧ (symbol_vocab 100 3).map SymLine.id = List.range 3 :=
  ⟨(make_symbol_list_table [] 3 100 ("tok.nemo") ("v.syms") false
      (symbol_vocab 100 3) rfl).1,
    (make_symbol_list_table [] 3 100 ("tok.nemo") ("v.syms") false
      (symbol_vocab 100 3) rfl).2.2.1⟩

/-- C8: on a successful scorer run, `perplexity` works on the scorer's
captured standard output and returns the join of exactly the five split
parts that precede the last one — a trailing block of the output, not the
full output (the Python slice `[-6:-1]` of the `"\n"`-split, for outputs
of at least six parts). -/
theorem perplexity_trailing_block (w : World) (ngram_mod test_far : String)
    (h0 : (w (ngramperplexity_cmd ngram_mod test_far)).returncode = 0)
    (h6 : 6 ≤ (pySplit (w (ngramperplexity_cmd ngram_mod test_far)).stdout '\n').length) :
    (perplexity w ngram_mod test_far).1
      = Except.ok (String.intercalate ("\n")
          (((pySplit (w (ngramperplexity_cmd ngram_mod test_far)).stdout '\n').drop
              ((pySplit (w (ngramperplexity_cmd ngram_mod test_far)).stdout '\n').length - 6)).take 5)) := by
  unfold perplexity
  rw [if_pos h0]
  have hlen : ((pySplit (w (ngramperplexity_cmd ngram_mod test_far)).stdout '\n').drop
      ((pySplit (w (ngramperplexity_cmd ngram_mod test_far)).stdout '\n').length - 6)).length
      = 6 := by
    rw [List.length_drop]
    omega
  rw [List.dropLast_eq_take, hlen]

/-- Witness for C8: a scorer emitting seven output lines; the returned
summary is lines two through six — the block just before the final
(empty-tail) part. -/
theorem perplexity_trailing_block_witness :
    (perplexity wOK ("m.mod") ("t.far")).1 = Except.ok ("l2\nl3\nl4\nl5\nl6") :=
  perplexity_trailing_block wOK ("m.mod") ("t.far") rfl (by decide)

/-- C6 counterexample: a collaborator stubbed to exit 1 after emitting
`STUBOUT`/`STUBERR` makes `farcompile` fail with a message that carries
the command line but renders `None` for both streams — the stub-emitted
strings are not captured (the subprocess runs with `stdout=sys.stdout,
stderr=sys.stderr`) and do not occur in the message. -/
theorem farcompile_error_omits_captured_output :
    (farcompile wStub [] ("s.syms") ("t.txt") ("t.far") false
        (test_perplexity_args ("tok.nemo"))).1
      = Except.error (assert_msg (joinSpace (farcompile_sh_args ("s.syms") ("t.far")))
          ("None") ("None"))
    ∧ assert_msg (joinSpace (farcompile_sh_args ("s.syms") ("t.far"))) ("None") ("None")
        ≠ assert_msg (joinSpace (farcompile_sh_args ("s.syms") ("t.far")))
          ("STUBOUT") ("STUBERR")
    ∧ containsSeg (("STUBERR").data)
        ((assert_msg (joinSpace (farcompile_sh_args ("s.syms") ("t.far")))
          ("None") ("None")).data) = false
    ∧ containsSeg (((joinSpace (farcompile_sh_args ("s.syms") ("t.far")))).data)
        ((assert_msg (joinSpace (farcompile_sh_args ("s.syms") ("t.far")))
          ("None") ("None")).data) = true :=
  ⟨rfl, by decide, by decide, by decide⟩

/-- C6 amended: on the produce path with a non-zero exit, `farcompile`
fails fatally and its assertion message reports the command line together
with the literal `None` placeholders for stdout/stderr (nothing is
captured, since the subprocess streams are inherited). -/
theorem farcompile_error_message (w : World) (fs : List String)
    (symbols text_file test_far : String) (force : Bool) (a : Args)
    (hmiss : (os_path_isfile fs test_far && !force) = false)
    (hfail : ¬ (w (joinSpace (farcompile_sh_args symbols test_far))).returncode = 0) :
    (farcompile w fs symbols text_file test_far force a).1
      = Except.error (assert_msg (joinSpace (farcompile_sh_args symbols test_far))
          ("None") ("None")) := by
  unfold farcompile
  rw [if_neg (by simp [hmiss]), if_neg hfail]
  rfl

/-- Witness for the amended C6 theorem, at the stubbed failing
collaborator. -/
theorem farcompile_error_message_witness :
    (farcompile wStub [] ("sy.syms") ("tx.txt") ("fr.far") false
        (test_perplexity_args ("tok.nemo"))).1
      = Except.error (assert_msg (joinSpace (farcompile_sh_args ("sy.syms") ("fr.far")))
          ("None") ("None")) :=
  farcompile_error_message wStub [] ("sy.syms") ("tx.txt") ("fr.far") false
    (test_perplexity_args ("tok.nemo")) (by decide) (by decide)

lemma perplexity_events (w : World) (ngram_mod test_far : String) :
    (perplexity w ngram_mod test_far).2 = [Event.cmd (ngramperplexity_cmd ngram_mod test_far)] := by
  unfold perplexity
  split_ifs <;> rfl

lemma farcompile_setup_mem (w : World) (fs : List String)
    (symbols text_file test_far : String) (force : Bool) (a0 a : Args)
    (ha : Event.setupTokenizer a ∈ (farcompile w fs symbols text_file test_far force a0).2) :
    a = a0 := by
  unfold farcompile at ha
  split_ifs at ha <;> simp_all

lemma farcompile_no_build (w : World) (fs : List String)
    (symbols text_file test_far : String) (force : Bool) (a0 : Args) :
    ((farcompile w fs symbols text_file test_far force a0).2.filter isBuildEvent) = [] := by
  unfold farcompile
  split_ifs <;> rfl

lemma test_perplexity_events_ne_nil (w : World) (fs : List String)
    (mod_c symbols test_txt nemo_model_file tmp_path : String) (force : Bool) :
    (test_perplexity w fs mod_c symbols test_txt nemo_model_file tmp_path force).2 ≠ [] := by
  by_cases h1 : (os_path_isfile fs (os_path_join tmp_path (pyBasename test_txt ++ (".far")))
      && !force) = true
  · simp [test_perplexity, farcompile, h1, perplexity_events]
  · by_cases h2 : (w (joinSpace (farcompile_sh_args symbols
        (os_path_join tmp_path (pyBasename test_txt ++ (".far")))))).returncode = 0 <;>
      simp [test_perplexity, farcompile, h1, h2, perplexity_events]

lemma test_perplexity_no_build (w : World) (fs : List String)
    (mod_c symbols test_txt nemo_model_file tmp_path : String) (force : Bool) :
    ((test_perplexity w fs mod_c symbols test_txt nemo_model_file tmp_path force).2.filter
      isBuildEvent) = [] := by
  by_cases h1 : (os_path_isfile fs (os_path_join tmp_path (pyBasename test_txt ++ (".far")))
      && !force) = true
  · simp [test_perplexity, farcompile, h1, perplexity_events, isBuildEvent]
  · by_cases h2 : (w (joinSpace (farcompile_sh_args symbols
        (os_path_join tmp_path (pyBasename test_txt ++ (".far")))))).returncode = 0 <;>
      simp [test_perplexity, farcompile, h1, h2, perplexity_events, isBuildEvent]

lemma test_perplexity_setup_mem (w : World) (fs : List String)
    (mod_c symbols test_txt nemo_model_file tmp_path : String) (force : Bool) (a : Args)
    (ha : Event.setupTokenizer a
      ∈ (test_perplexity w fs mod_c symbols test_txt nemo_model_file tmp_path force).2) :
    a = test_perplexity_args nemo_model_file := by
  by_cases h1 : (os_path_isfile fs (os_path_join tmp_path (pyBasename test_txt ++ (".far")))
      && !force) = true
  · simp [test_perplexity, farcompile, h1, perplexity_events] at ha
  · by_cases h2 : (w (joinSpace (farcompile_sh_args symbols
        (os_path_join tmp_path (pyBasename test_txt ++ (".far")))))).returncode = 0 <;>
      simp [test_perplexity, farcompile, h1, h2, perplexity_events] at ha <;>
      simp_all

/-- C10: every tokenizer setup that a `test_perplexity` run performs uses
the one hard-coded normalization configuration — `punctuation_marks`
`".,?"`, no lowercasing, no punctuation removal, punctuation separation
on, verbosity 0; none of these is a parameter of the pipeline entry
point. -/
theorem test_perplexity_fixed_normalization (w : World) (fs : List String)
    (mod_c symbols test_txt nemo_model_file tmp_path : String) (force : Bool) (a : Args)
    (ha : Event.setupTokenizer a
      ∈ (test_perplexity w fs mod_c symbols test_txt nemo_model_file tmp_path force).2) :
    a.punctuation_marks = (".,?") ∧ a.do_lowercase = false ∧ a.rm_punctuation = false
      ∧ a.separate_punctuation = true ∧ a.verbose = 0
      ∧ a = test_perplexity_args nemo_model_file := by
  have h := test_perplexity_setup_mem w fs mod_c symbols test_txt nemo_model_file
    tmp_path force a ha
  subst h
  exact ⟨rfl, rfl, rfl, rfl, rfl, rfl⟩

/-- Witness for C10: a concrete produce-path run does set up the
tokenizer, and the configuration it carries is the fixed one. -/
theorem test_perplexity_fixed_normalization_witness :
    (test_perplexity_args ("tok.nemo")).punctuation_marks = (".,?")
    ∧ (test_perplexity_args ("tok.nemo")).verbose = 0 :=
  ⟨(test_perplexity_fixed_normalization wOK [] ("m.mod") ("s.syms") ("t.txt") ("tok.nemo")
      ("out") false (test_perplexity_args ("tok.nemo")) (by decide)).1,
    (test_perplexity_fixed_normalization wOK [] ("m.mod") ("s.syms") ("t.txt") ("tok.nemo")
      ("out") false (test_perplexity_args ("tok.nemo")) (by decide)).2.2.2.2.1⟩

/-- C7 counterexample: with a symbol-table path supplied (`given.syms`)
that does not exist on the filesystem, the evaluation branch is entered
(trace nonempty) but performs no model load and writes no symbol table —
a caller-supplied path is used as-is, the absent table is not built. -/
theorem eval_symbols_supplied_not_built_cex :
    ((eval_branch wOK [] 2 100 ("m.mod") ("out") (some ("t.txt")) (some ("given.syms"))
        (some ("tok.nemo")) false).2.filter isBuildEvent) = []
    ∧ os_path_isfile [] ("given.syms") = false
    ∧ (eval_branch wOK [] 2 100 ("m.mod") ("out") (some ("t.txt")) (some ("given.syms"))
        (some ("tok.nemo")) false).2 ≠ [] := by
  refine ⟨rfl, rfl, by decide⟩

/-- C7 amended: the evaluation branch is entered exactly when both a test
corpus and a tokenizer reference are supplied (truthy); when it is not
entered nothing happens, when it is entered work is always performed; the
symbol table is built only when no symbol-table path was supplied — then
`make_symbol_list` runs against the derived default path (building it
when absent or forced) — while a supplied path is used as-is, with no
build even if the file is absent. -/
theorem eval_branch_entry (w : World) (fs : List String) (vocab_size offset : Nat)
    (mod_c out_path : String) (test_file symbols nemo_model_file : Option String)
    (force : Bool) :
    ((pyTruthy test_file && pyTruthy nemo_model_file) = false
      → eval_branch w fs vocab_size offset mod_c out_path test_file symbols
          nemo_model_file force = (Except.ok (), []))
    ∧ ((pyTruthy test_file && pyTruthy nemo_model_file) = true
      → (eval_branch w fs vocab_size offset mod_c out_path test_file symbols
          nemo_model_file force).2 ≠ [])
    ∧ ((pyTruthy test_file && pyTruthy nemo_model_file) = true
      → pyTruthy symbols = true
      → ((eval_branch w fs vocab_size offset mod_c out_path test_file symbols
          nemo_model_file force).2.filter isBuildEvent) = [])
    ∧ ((pyTruthy test_file && pyTruthy nemo_model_file) = true
      → pyTruthy symbols = false
      → (os_path_isfile fs (os_path_join out_path
            (pyBasename (optS nemo_model_file) ++ (".syms"))) && !force) = false
      → Event.loadModel (optS nemo_model_file)
          ∈ (eval_branch w fs vocab_size offset mod_c out_path test_file symbols
              nemo_model_file force).2) := by
  refine ⟨?_, ?_, ?_, ?_⟩
  · intro h
    simp [eval_branch, h]
  · intro h hn
    rw [eval_branch] at hn
    simp only [h, if_true] at hn
    rw [List.append_eq_nil] at hn
    exact test_perplexity_events_ne_nil w fs mod_c _ (optS test_file)
      (optS nemo_model_file) out_path force hn.2
  · intro h hs
    rw [eval_branch]
    simp only [h, hs, if_true]
    rw [List.filter_append]
    rw [test_perplexity_no_build]
    rfl
  · intro h hs hfile
    rw [eval_branch]
    simp only [h, hs, if_true, if_false, Bool.false_eq_true]
    rw [List.mem_append]
    left
    unfold make_symbol_list
    rw [if_neg (by simp [hfile])]
    simp

/-- Witness for the amended C7 theorem: with neither optional argument
supplied the branch does nothing and succeeds. -/
theorem eval_branch_entry_witness :
    eval_branch wOK [] 2 100 ("m.mod") ("out") none none none false
      = (Except.ok (), []) :=
  (eval_branch_entry wOK [] 2 100 ("m.mod") ("out") none none none false).1 rfl

lemma append_cons_sep_inj {α : Type} (c : α) :
    ∀ (u1 u2 v1 v2 : List α), c ∉ u1 → c ∉ u2
      → u1 ++ c :: v1 = u2 ++ c :: v2 → u1 = u2 ∧ v1 = v2 := by
  intro u1
  induction u1 with
  | nil =>
    intro u2 v1 v2 _ h2 h
    cases u2 with
    | nil =>
      simp only [List.nil_append] at h
      injection h with _ hv
      exact ⟨rfl, hv⟩
    | cons b u2 =>
      simp only [List.nil_append, List.cons_append] at h
      injection h with hc _
      exact absurd (by rw [hc]; exact List.mem_cons_self b u2) h2
  | cons a u1 ih =>
    intro u2 v1 v2 h1 h2 h
    cases u2 with
    | nil =>
      simp only [List.cons_append, List.nil_append] at h
      injection h with hc _
      exact absurd (by rw [← hc]; exact List.mem_cons_self a u1) h1
    | cons b u2 =>
      simp only [List.cons_append] at h
      injection h with hab ht
      have hr := ih u2 v1 v2 (fun hm => h1 (List.mem_cons_of_mem a hm))
        (fun hm => h2 (List.mem_cons_of_mem b hm)) ht
      exact ⟨by rw [hab, hr.1], hr.2⟩

lemma dash_data : ("-" : String).data = [ '-' ] := rfl

lemma mergedName_data (arpa_a alphaS arpa_b betaS : String) :
    (mergedName arpa_a alphaS arpa_b betaS).data
      = (pyBasename arpa_a).data ++ '-' :: (alphaS.data ++ '-' ::
          ((pyBasename arpa_b).data ++ '-' :: (betaS.data ++ (".arpa").data))) := by
  simp [mergedName, String.data_append, dash_data, List.append_assoc,
    List.singleton_append]

lemma mergedName_head_eq (arpa_a arpa_b alphaS1 betaS1 alphaS2 betaS2 : String) :
    pyStartsWithSlash (mergedName arpa_a alphaS1 arpa_b betaS1)
      = pyStartsWithSlash (mergedName arpa_a alphaS2 arpa_b betaS2) := by
  unfold pyStartsWithSlash
  rw [mergedName_data, mergedName_data]
  cases h : (pyBasename arpa_a).data <;> simp [h]

lemma string_append_left_cancel {s t u : String} (h : s ++ t = s ++ u) : t = u := by
  have hd := congrArg String.data h
  rw [String.data_append, String.data_append] at hd
  exact String.ext (List.append_inj hd rfl).2

lemma os_path_join_cancel (out n1 n2 : String)
    (hh : pyStartsWithSlash n1 = pyStartsWithSlash n2)
    (h : os_path_join out n1 = os_path_join out n2) : n1 = n2 := by
  unfold os_path_join at h
  cases hs : pyStartsWithSlash n1
  · have hs2 : pyStartsWithSlash n2 = false := by rw [← hh]; exact hs
    rw [hs, hs2] at h
    simp only [Bool.false_eq_true, if_false] at h
    by_cases ho : out = ""
    · rw [if_pos ho, if_pos ho] at h
      exact h
    · rw [if_neg ho, if_neg ho] at h
      by_cases he : pyEndsWithSlash out = true
      · rw [if_pos he, if_pos he] at h
        exact string_append_left_cancel h
      · rw [if_neg he, if_neg he] at h
        exact string_append_left_cancel h
  · have hs2 : pyStartsWithSlash n2 = true := by rw [← hh]; exact hs
    rw [hs, hs2] at h
    simp only [if_true] at h
    exact h

lemma mergedName_inj (arpa_a arpa_b alphaS1 betaS1 alphaS2 betaS2 : String)
    (ha1 : '-' ∉ alphaS1.data) (ha2 : '-' ∉ alphaS2.data)
    (h : mergedName arpa_a alphaS1 arpa_b betaS1 = mergedName arpa_a alphaS2 arpa_b betaS2) :
    alphaS1 = alphaS2 ∧ betaS1 = betaS2 := by
  have hd := congrArg String.data h
  rw [mergedName_data, mergedName_data] at hd
  have hd2 := (List.append_inj hd rfl).2
  injection hd2 with _ hd3
  obtain ⟨hsa, hrest⟩ := append_cons_sep_inj '-' alphaS1.data alphaS2.data _ _ ha1 ha2 hd3
  have hrest2 := (List.append_inj hrest rfl).2
  injection hrest2 with _ hd4
  have hsb := (List.append_inj' hd4 rfl).1
  exact ⟨String.ext hsa, String.ext hsb⟩

/-- C5: for fixed input models and output directory, the merged-model
output paths (both the `.arpa` path that encodes the two basenames and
the two weights, and the `.mod` path derived from it) differ whenever the
weight pairs differ.  The weights enter the path through their Python
`str()` rendering: `str` is injective on floats and renders the
non-negative weights of this design without a `-` character, which the
two containment hypotheses encode. -/
theorem merge_weight_paths_differ (w : World) (fs : List String)
    (arpa_a arpa_b out_path alphaS1 betaS1 alphaS2 betaS2 : String) (force : Bool)
    (ha1 : '-' ∉ alphaS1.data) (ha2 : '-' ∉ alphaS2.data)
    (hne : ¬ (alphaS1 = alphaS2 ∧ betaS1 = betaS2)) :
    (merge w fs arpa_a alphaS1 arpa_b betaS1 out_path force).1.2
      ≠ (merge w fs arpa_a alphaS2 arpa_b betaS2 out_path force).1.2
    ∧ (merge w fs arpa_a alphaS1 arpa_b betaS1 out_path force).1.1
      ≠ (merge w fs arpa_a alphaS2 arpa_b betaS2 out_path force).1.1 := by
  have harpa : ∀ aS bS, (merge w fs arpa_a aS arpa_b bS out_path force).1.2
      = os_path_join out_path (mergedName arpa_a aS arpa_b bS) := fun aS bS => rfl
  have hmod : ∀ aS bS, (merge w fs arpa_a aS arpa_b bS out_path force).1.1
      = os_path_join out_path (mergedName arpa_a aS arpa_b bS) ++ (".mod") := by
    intro aS bS
    show (ngrammerge w fs arpa_a aS arpa_b bS
        (os_path_join out_path (mergedName arpa_a aS arpa_b bS)) force).1 = _
    unfold ngrammerge
    split_ifs <;> rfl
  constructor
  · rw [harpa, harpa]
    intro h
    exact hne (mergedName_inj arpa_a arpa_b alphaS1 betaS1 alphaS2 betaS2 ha1 ha2
      (os_path_join_cancel out_path _ _
        (mergedName_head_eq arpa_a arpa_b alphaS1 betaS1 alphaS2 betaS2) h))
  · rw [hmod, hmod]
    intro h
    have hd := congrArg String.data h
    rw [String.data_append, String.data_append] at hd
    have h2 : os_path_join out_path (mergedName arpa_a alphaS1 arpa_b betaS1)
        = os_path_join out_path (mergedName arpa_a alphaS2 arpa_b betaS2) :=
      String.ext (List.append_inj' hd rfl).1
    exact hne (mergedName_inj arpa_a arpa_b alphaS1 betaS1 alphaS2 betaS2 ha1 ha2
      (os_path_join_cancel out_path _ _
        (mergedName_head_eq arpa_a arpa_b alphaS1 betaS1 alphaS2 betaS2) h2))

/-- Witness for C5 at the spec's own example: weights (1,1) versus (2,1)
on the same inputs yield different merged `.arpa` paths. -/
theorem merge_weight_paths_differ_witness :
    (merge wOK [] ("a.arpa") ("1.0") ("b.arpa") ("1.0") ("out") false).1.2
      ≠ (merge wOK [] ("a.arpa") ("2.0") ("b.arpa") ("1.0") ("out") false).1.2 :=
  (merge_weight_paths_differ wOK [] ("a.arpa") ("b.arpa") ("out") ("1.0") ("1.0")
    ("2.0") ("1.0") false (by decide) (by decide) (by decide)).1

/-- Witness for C2 at a concrete cache hit: the `.mod` target exists and
`force` is false, so `arpa2mod` runs no external command. -/
theorem cache_gate_skip_iff_witness :
    (arpa2mod wOK [("x.arpa.mod")] ("x.arpa") false).2 = [] :=
  ((cache_gate_skip_iff wOK [("x.arpa.mod")] 1 100 ("kb") ("x.arpa") ("a") ("1.0") ("b")
      ("1.0") ("c") ("nm") ("sy") ("tx") ("fr") ("gm") ("ga") false
      (test_perplexity_args ("nm"))).1).mpr ⟨by decide, rfl⟩
